import Mathlib

/-!
Verification of the task-status polling and reconciliation protocol of the
video_summarizer front end (src/frontend/src/views/Tasks.vue).

The embedding models the detail view's local state and the per-tick polling
callback installed by `startPolling`, the mount-time decision in `loadRecord`,
the user-action handlers (`handleRetry`, `handleRetranscribe`,
`handleResummarize`) and the browser timer bookkeeping
(`window.setInterval` / `clearInterval` via the module-level
`pollingInterval` handle).

Optional string fields of the JSON payloads are modelled as `String`, with
`""` standing for a missing/undefined value; this matches the JS truthiness
checks (`if (preservedUrls.video_url) ...`) in the source, where both the
empty string and `undefined` are falsy.
-/

namespace VideoSummarizer

/-- One task record as held by the detail view (`record.value`) or received
from the backend (`response.data`).  Fields are those the polling slice reads
or writes. -/
structure TaskRecord where
  status : String
  progress : Int
  summary : String
  transcription : String
  video_url : String
  audio_url : String
  transcription_url : String
  deriving Repr, DecidableEq

/-- The sticky-URL snapshot captured by `startPolling` into its local
`preservedUrls` constant. -/
structure PreservedUrls where
  video_url : String
  audio_url : String
  transcription_url : String
  deriving Repr, DecidableEq

/-- The body of a `GET /v1/tasks/{id}` response: a `success` flag and an
optional `data` payload (`none` models a malformed response missing `data`). -/
structure ApiResponse where
  success : Bool
  data : Option TaskRecord
  deriving Repr, DecidableEq

/-- Outcome of one tick's fetch: either the promise rejected (network/5xx
error, caught by the `catch` block) or a response body was obtained. -/
inductive FetchOutcome where
  | err : FetchOutcome
  | ok : ApiResponse → FetchOutcome
  deriving Repr, DecidableEq

/-- A user-visible toast emitted through `message.success` / `message.error`
/ `message.info`. -/
inductive Notice where
  | successNote : String → Notice
  | errorNote : String → Notice
  | infoNote : String → Notice
  deriving Repr, DecidableEq

/-- A follow-up content re-fetch triggered by a terminal tick:
`await loadRecord()` or `await loadSummaries()`. -/
inductive FollowUp where
  | reloadRecord : FollowUp
  | reloadSummaries : FollowUp
  deriving Repr, DecidableEq

/-- The slice of the detail view's reactive state that the polling code
touches: `record`, `stableVideoUrl`, whether a poll timer is installed
(`pollingInterval !== null`), and the durable localStorage poll-intent flag
for the viewed task id. -/
structure ViewState where
  record : Option TaskRecord
  stableVideoUrl : String
  polling : Bool
  pollFlag : Bool
  deriving Repr, DecidableEq

/-- The `preservedUrls` capture at the top of `startPolling`:
`video_url: stableVideoUrl.value || record.value?.video_url`, and the
record's current `audio_url` / `transcription_url` (empty when no record is
held, modelling `undefined`). -/
def capturePreserved (s : ViewState) : PreservedUrls :=
  { video_url :=
      if s.stableVideoUrl ≠ "" then s.stableVideoUrl
      else
        match s.record with
        | some r => r.video_url
        | none => ""
    audio_url :=
      match s.record with
      | some r => r.audio_url
      | none => ""
    transcription_url :=
      match s.record with
      | some r => r.transcription_url
      | none => "" }

/-- The per-tick merge performed inside the interval callback when a record
is held, as a pure function: volatile fields (`status`, `summary`,
`transcription`, `progress`) are overwritten from the fetched data;
`audio_url` / `transcription_url` are overwritten with the preserved value
when that value is non-empty and otherwise left as they are;
`record.video_url` is never written by a tick — instead the separate
`stableVideoUrl` ref (second component) is set to the preserved value when
that value is non-empty. -/
def reconcile (current : TaskRecord) (stable : String) (fetched : TaskRecord)
    (preserved : PreservedUrls) : TaskRecord × String :=
  ({ current with
      status := fetched.status
      summary := fetched.summary
      transcription := fetched.transcription
      progress := fetched.progress
      audio_url :=
        if preserved.audio_url ≠ "" then preserved.audio_url else current.audio_url
      transcription_url :=
        if preserved.transcription_url ≠ "" then preserved.transcription_url
        else current.transcription_url },
   if preserved.video_url ≠ "" then preserved.video_url else stable)

/-- `completed` and `failed` end the polling session. -/
def isTerminal (st : String) : Bool :=
  st == "completed" || st == "failed"

/-- Result of one execution of the interval callback. -/
structure TickResult where
  state : ViewState
  notices : List Notice
  followUps : List FollowUp
  deriving Repr, DecidableEq

/-- One execution of the interval callback installed by `startPolling`,
given the captured `preserved` snapshot and the fetch's outcome.  A thrown
fetch is only logged; a response missing `success` or `data` does nothing;
otherwise the held record (if any) is reconciled, and when the fetched
status is terminal the timer is cleared, the poll-intent flag removed, and
exactly one toast (plus, on success, a content re-fetch) is emitted, worded
by the status the record had before this tick's update. -/
def pollTick (preserved : PreservedUrls) (outcome : FetchOutcome)
    (s : ViewState) : TickResult :=
  match outcome with
  | .err => ⟨s, [], []⟩
  | .ok resp =>
    if resp.success then
      match resp.data with
      | none => ⟨s, [], []⟩
      | some d =>
        let prev : String :=
          match s.record with
          | some r => r.status
          | none => ""
        let s1 : ViewState :=
          match s.record with
          | some r =>
            let m := reconcile r s.stableVideoUrl d preserved
            { s with record := some m.1, stableVideoUrl := m.2 }
          | none => s
        if isTerminal d.status then
          let s2 : ViewState := { s1 with polling := false, pollFlag := false }
          if d.status == "completed" then
            if prev == "transcribing" then
              ⟨s2, [.successNote "转录完成"], [.reloadRecord]⟩
            else
              ⟨s2, [.successNote "总结生成完成"], [.reloadSummaries]⟩
          else
            if prev == "transcribing" then
              ⟨s2, [.errorNote "转录失败"], []⟩
            else
              ⟨s2, [.errorNote "总结生成失败"], []⟩
        else ⟨s1, [], []⟩
    else ⟨s, [], []⟩

/-- Accumulated result of running a poll session over a list of tick
outcomes: final state, all toasts, all follow-up re-fetches, and the number
of poll fetches issued. -/
structure RunResult where
  state : ViewState
  notices : List Notice
  followUps : List FollowUp
  fetches : Nat
  deriving Repr, DecidableEq

/-- Run successive ticks.  A tick only fires (and only fetches) while a
timer is installed, i.e. while `polling` is true; clearing the interval
stops all further callbacks. -/
def runTicks (preserved : PreservedUrls) (outs : List FetchOutcome)
    (s : ViewState) : RunResult :=
  match outs with
  | [] => ⟨s, [], [], 0⟩
  | o :: rest =>
    if s.polling then
      let t := pollTick preserved o s
      let r := runTicks preserved rest t.state
      ⟨r.state, t.notices ++ r.notices, t.followUps ++ r.followUps, r.fetches + 1⟩
    else ⟨s, [], [], 0⟩

/-- `startPolling` as it acts on the view state: set the durable
poll-intent flag, install the (single) timer, and capture the preserved
sticky-URL snapshot from the current state. -/
def startPolling (s : ViewState) : ViewState × PreservedUrls :=
  ({ s with polling := true, pollFlag := true }, capturePreserved s)

/-- The in-progress status list checked by `loadRecord`. -/
def processingStatuses : List String :=
  ["pending", "downloading", "extracting_audio", "transcribing", "summarizing"]

/-- The mount-time `loadRecord` step on a fetch result: when the fetch
succeeded, bind the record, update `stableVideoUrl` when the fresh
`video_url` is non-empty, and start polling iff the fresh status is
in-progress or the durable poll-intent flag reads true. -/
def loadRecord (success : Bool) (d : TaskRecord) (flag : Bool)
    (s : ViewState) : ViewState :=
  if success then
    let s1 : ViewState :=
      { s with record := some d
               stableVideoUrl :=
                 if d.video_url ≠ "" then d.video_url else s.stableVideoUrl }
    if processingStatuses.contains d.status || flag then (startPolling s1).1
    else s1
  else s

/-- Result of a user-action handler: new view state, whether the handler
started the poller, and the toasts it emitted. -/
structure ActionResult where
  state : ViewState
  startedPolling : Bool
  notices : List Notice
  deriving Repr, DecidableEq

/-- `handleRetranscribe`: on HTTP success, optimistically set
status/progress, set the poll-intent flag and start polling. -/
def handleRetranscribe (success : Bool) (s : ViewState) : ActionResult :=
  match s.record with
  | none => ⟨s, false, []⟩
  | some r =>
    if success then
      let s1 : ViewState := { s with record := some { r with status := "transcribing", progress := 60 } }
      ⟨(startPolling { s1 with pollFlag := true }).1, true,
        [.infoNote "正在重新转录，请稍候..."]⟩
    else ⟨s, false, [.errorNote "重新转录失败"]⟩

/-- `handleResummarize`: on HTTP success, optimistically set
status/progress, set the poll-intent flag and start polling. -/
def handleResummarize (success : Bool) (s : ViewState) : ActionResult :=
  match s.record with
  | none => ⟨s, false, []⟩
  | some r =>
    if success then
      let s1 : ViewState := { s with record := some { r with status := "summarizing", progress := 90 } }
      ⟨(startPolling { s1 with pollFlag := true }).1, true,
        [.infoNote "正在生成总结，请稍候..."]⟩
    else ⟨s, false, [.errorNote "生成失败"]⟩

/-- `handleRetry`: on HTTP success with data, replace the local record with
the response snapshot and toast; it neither sets the poll-intent flag nor
starts polling. -/
def handleRetry (resp : ApiResponse) (s : ViewState) : ActionResult :=
  match s.record with
  | none => ⟨s, false, []⟩
  | some _ =>
    if resp.success then
      match resp.data with
      | some d =>
        ⟨{ s with record := some d }, false,
          [.successNote "任务已重新提交，将开始处理"]⟩
      | none => ⟨s, false, [.errorNote "重新执行失败"]⟩
    else ⟨s, false, [.errorNote "重新执行失败"]⟩

/-- Browser timer bookkeeping: the ids of live intervals, a fresh-id
counter, and the module-level `pollingInterval` handle. -/
structure TimerSys where
  nextId : Nat
  live : List Nat
  handle : Option Nat
  deriving Repr, DecidableEq

/-- `clearInterval(h)` removes timer `h` from the live set. -/
def clearIntervalSys (t : TimerSys) (h : Nat) : TimerSys :=
  { t with live := t.live.filter (fun i => i ≠ h) }

/-- `window.setInterval(...)` installs a fresh live timer and returns its id. -/
def setIntervalSys (t : TimerSys) : TimerSys × Nat :=
  ({ t with nextId := t.nextId + 1, live := t.live ++ [t.nextId] }, t.nextId)

/-- The timer side of `startPolling`: clear any prior interval recorded in
the handle, then install a new one and record it. -/
def startPollingTimer (t : TimerSys) : TimerSys :=
  let t1 :=
    match t.handle with
    | some h => clearIntervalSys t h
    | none => t
  let p := setIntervalSys t1
  { p.1 with handle := some p.2 }

/-- `stopPolling`: clear the recorded interval, if any, and null the handle. -/
def stopPollingTimer (t : TimerSys) : TimerSys :=
  match t.handle with
  | some h => { clearIntervalSys t h with handle := none }
  | none => t

/-- Timer-state well-formedness: all live ids are below the fresh counter,
and the live set is exactly what the handle records. -/
def TimerWF (t : TimerSys) : Prop :=
  (∀ i ∈ t.live, i < t.nextId) ∧ t.live = t.handle.toList

/-- The status the view held immediately before a tick (empty when no
record is held). -/
def prevStatusOf (s : ViewState) : String :=
  match s.record with
  | some r => r.status
  | none => ""

/-- The terminal toast as a function of the fetched terminal status and the
pre-tick status. -/
def terminalNotice (newStatus prevStatus : String) : Notice :=
  if newStatus = "completed" then
    if prevStatus = "transcribing" then .successNote "转录完成"
    else .successNote "总结生成完成"
  else
    if prevStatus = "transcribing" then .errorNote "转录失败"
    else .errorNote "总结生成失败"

/-- A fetch outcome that yields no update: a thrown fetch or a response
missing `success` or `data`. -/
def malformed (o : FetchOutcome) : Bool :=
  match o with
  | .err => true
  | .ok r => !(r.success && r.data.isSome)

/- Sample values used as concrete witnesses and counterexamples. -/

/-- A record mid-transcription with known sticky URLs. -/
def sampleCurrent : TaskRecord :=
  { status := "transcribing", progress := 60, summary := "", transcription := ""
    video_url := "https://v/old", audio_url := "https://a/old"
    transcription_url := "https://t/old" }

/-- A fetched payload carrying fresh sticky URLs. -/
def sampleFetched : TaskRecord :=
  { status := "summarizing", progress := 90, summary := "s", transcription := "t"
    video_url := "https://v/new", audio_url := "https://a/new"
    transcription_url := "https://t/new" }

/-- An all-empty preserved snapshot (nothing was known at `startPolling`). -/
def emptyPreserved : PreservedUrls :=
  { video_url := "", audio_url := "", transcription_url := "" }

/-- A view state holding `sampleCurrent` with a live poll timer. -/
def sampleState : ViewState :=
  { record := some sampleCurrent, stableVideoUrl := "", polling := true, pollFlag := true }

/-- A view state holding `sampleCurrent` with no poll timer. -/
def sampleIdleState : ViewState :=
  { record := some sampleCurrent, stableVideoUrl := "", polling := false, pollFlag := false }

/-- C9: the per-tick reconciliation, as the pure function
`reconcile(current, fetched, preserved)` (here also carrying the
`stableVideoUrl` ref), is idempotent for fixed fetched data and preserved
snapshot: reapplying it to its own result changes nothing. -/
theorem c9_reconcile_idempotent (a : TaskRecord) (stable : String)
    (b : TaskRecord) (p : PreservedUrls) :
    reconcile (reconcile a stable b p).1 (reconcile a stable b p).2 b p
      = reconcile a stable b p := by
  simp only [reconcile]
  split_ifs <;> rfl

/-- C1 (amended): on a successful well-formed tick with a record held, the
sticky slots are set to the preserved snapshot value when that value is
non-empty and otherwise retain their current local value (the fetched
sticky values are ignored; `record.video_url` is never written, the
preserved video URL going to the separate `stableVideoUrl` ref), and a
sticky slot that was non-empty before the tick is never empty after it. -/
theorem c1_sticky_fields (p : PreservedUrls) (s : ViewState)
    (r d : TaskRecord) (hrec : s.record = some r) :
    ((pollTick p (.ok ⟨true, some d⟩) s).state.record.map TaskRecord.audio_url
      = some (if p.audio_url = "" then r.audio_url else p.audio_url)) ∧
    ((pollTick p (.ok ⟨true, some d⟩) s).state.record.map
        TaskRecord.transcription_url
      = some (if p.transcription_url = "" then r.transcription_url
              else p.transcription_url)) ∧
    ((pollTick p (.ok ⟨true, some d⟩) s).state.record.map TaskRecord.video_url
      = some r.video_url) ∧
    ((pollTick p (.ok ⟨true, some d⟩) s).state.stableVideoUrl
      = (if p.video_url = "" then s.stableVideoUrl else p.video_url)) ∧
    (r.audio_url ≠ "" →
      (pollTick p (.ok ⟨true, some d⟩) s).state.record.map TaskRecord.audio_url
        ≠ some "") ∧
    (r.transcription_url ≠ "" →
      (pollTick p (.ok ⟨true, some d⟩) s).state.record.map
        TaskRecord.transcription_url ≠ some "") := by
  simp only [pollTick, hrec, reconcile]
  split_ifs <;> simp_all

/-- C1 witness: at a concrete input (empty preserved snapshot, record whose
audio URL is known) the sticky audio URL keeps its current value and stays
non-empty. -/
theorem c1_sticky_fields_witness :
    ((pollTick emptyPreserved (.ok ⟨true, some sampleFetched⟩)
        sampleState).state.record.map TaskRecord.audio_url
      = some (if emptyPreserved.audio_url = "" then sampleCurrent.audio_url
              else emptyPreserved.audio_url)) ∧
    ((pollTick emptyPreserved (.ok ⟨true, some sampleFetched⟩)
        sampleState).state.record.map TaskRecord.audio_url ≠ some "") :=
  ⟨(c1_sticky_fields emptyPreserved sampleState sampleCurrent sampleFetched
      rfl).1,
   (c1_sticky_fields emptyPreserved sampleState sampleCurrent sampleFetched
      rfl).2.2.2.2.1 (by decide)⟩

/-- C1 counterexample: the claim's fallback clause fails — with an empty
preserved snapshot and a fetched payload carrying a fresh `audio_url`, the
tick leaves the record's `audio_url` at its current value `"https://a/old"`
instead of the fetched `"https://a/new"`. -/
theorem c1_counterexample :
    emptyPreserved.audio_url = "" ∧
    sampleFetched.audio_url = "https://a/new" ∧
    (pollTick emptyPreserved (.ok ⟨true, some sampleFetched⟩)
        sampleState).state.record.map TaskRecord.audio_url
      = some "https://a/old" := by
  refine ⟨rfl, rfl, ?_⟩
  decide

/-- C2: on a successful well-formed tick with a record held, the volatile
fields `status`, `progress`, `summary` and `transcription` of the resulting
record are exactly the fetched values, with no carry-over from the prior
record, even when the fetched values are empty. -/
theorem c2_volatile_overwrite (p : PreservedUrls) (s : ViewState)
    (r d : TaskRecord) (hrec : s.record = some r) :
    ((pollTick p (.ok ⟨true, some d⟩) s).state.record.map TaskRecord.status
      = some d.status) ∧
    ((pollTick p (.ok ⟨true, some d⟩) s).state.record.map TaskRecord.progress
      = some d.progress) ∧
    ((pollTick p (.ok ⟨true, some d⟩) s).state.record.map TaskRecord.summary
      = some d.summary) ∧
    ((pollTick p (.ok ⟨true, some d⟩) s).state.record.map
        TaskRecord.transcription
      = some d.transcription) := by
  simp only [pollTick, hrec, reconcile]
  split_ifs <;> simp_all

/-- C2 witness: at a concrete input the volatile fields take the fetched
values, the prior record's values being discarded. -/
theorem c2_volatile_overwrite_witness :
    ((pollTick emptyPreserved (.ok ⟨true, some sampleFetched⟩)
        sampleState).state.record.map TaskRecord.status
      = some sampleFetched.status) ∧
    ((pollTick emptyPreserved (.ok ⟨true, some sampleFetched⟩)
        sampleState).state.record.map TaskRecord.progress
      = some sampleFetched.progress) :=
  ⟨(c2_volatile_overwrite emptyPreserved sampleState sampleCurrent
      sampleFetched rfl).1,
   (c2_volatile_overwrite emptyPreserved sampleState sampleCurrent
      sampleFetched rfl).2.1⟩

/-- Once the timer is cleared, no tick fires and no fetch is issued. -/
theorem runTicks_stopped (p : PreservedUrls) (outs : List FetchOutcome)
    (s : ViewState) (h : s.polling = false) :
    runTicks p outs s = ⟨s, [], [], 0⟩ := by
  cases outs with
  | nil => rfl
  | cons o rest => simp [runTicks, h]

/-- C3: once a tick's fetch returns a well-formed response with status
`completed` or `failed`, no further fetch occurs in that poll session
however many more outcomes were queued, the timer is cleared, the durable
poll-intent flag is cleared, and exactly one terminal notice is emitted —
a success toast plus one content re-fetch on `completed`, an error toast
and no re-fetch on `failed`. -/
theorem c3_terminal_stop (p : PreservedUrls) (s : ViewState) (d : TaskRecord)
    (rest : List FetchOutcome) (hpoll : s.polling = true)
    (hterm : d.status = "completed" ∨ d.status = "failed") :
    (runTicks p (.ok ⟨true, some d⟩ :: rest) s).fetches = 1 ∧
    (runTicks p (.ok ⟨true, some d⟩ :: rest) s).state.polling = false ∧
    (runTicks p (.ok ⟨true, some d⟩ :: rest) s).state.pollFlag = false ∧
    (runTicks p (.ok ⟨true, some d⟩ :: rest) s).notices.length = 1 ∧
    (d.status = "completed" →
      (∃ m, (runTicks p (.ok ⟨true, some d⟩ :: rest) s).notices
          = [Notice.successNote m]) ∧
      (runTicks p (.ok ⟨true, some d⟩ :: rest) s).followUps.length = 1) ∧
    (d.status = "failed" →
      (∃ m, (runTicks p (.ok ⟨true, some d⟩ :: rest) s).notices
          = [Notice.errorNote m]) ∧
      (runTicks p (.ok ⟨true, some d⟩ :: rest) s).followUps = []) := by
  have hstop : (pollTick p (.ok ⟨true, some d⟩) s).state.polling = false := by
    rcases hterm with h | h <;>
      simp only [pollTick, h, isTerminal] <;>
      split <;> simp_all <;> split <;> simp_all
  have hrun : runTicks p (.ok ⟨true, some d⟩ :: rest) s
      = ⟨(pollTick p (.ok ⟨true, some d⟩) s).state,
         (pollTick p (.ok ⟨true, some d⟩) s).notices,
         (pollTick p (.ok ⟨true, some d⟩) s).followUps, 1⟩ := by
    simp [runTicks, hpoll, runTicks_stopped _ rest _ hstop]
  rw [hrun]
  rcases hterm with h | h <;>
    simp only [pollTick, h, isTerminal] <;>
    split <;> simp_all <;> split <;> simp_all

/-- C3 witness: a concrete completed tick with further outcomes queued
fetches once, stops, clears the flag, and emits one success toast with one
content re-fetch. -/
theorem c3_terminal_stop_witness :
    (runTicks emptyPreserved
        (.ok ⟨true, some { sampleFetched with status := "completed" }⟩
          :: FetchOutcome.err :: []) sampleState).fetches = 1 ∧
    (runTicks emptyPreserved
        (.ok ⟨true, some { sampleFetched with status := "completed" }⟩
          :: FetchOutcome.err :: []) sampleState).state.pollFlag = false := by
  have h := c3_terminal_stop emptyPreserved sampleState
    { sampleFetched with status := "completed" } [FetchOutcome.err] rfl
    (Or.inl rfl)
  exact ⟨h.1, h.2.2.1⟩

/-- C6: on the tick that observes a terminal status, the toast wording is a
function of the fetched terminal status and the status held locally
immediately before the update was applied (`""` when no record was held):
`transcribing` selects the transcription wording, anything else the
summarization wording. -/
theorem c6_wording_prior_status (p : PreservedUrls) (s : ViewState)
    (d : TaskRecord)
    (hterm : d.status = "completed" ∨ d.status = "failed") :
    (pollTick p (.ok ⟨true, some d⟩) s).notices
      = [terminalNotice d.status (prevStatusOf s)] := by
  rcases hterm with h | h <;>
    simp only [pollTick, h, isTerminal, terminalNotice, prevStatusOf] <;>
    split <;> simp_all <;> split <;> simp_all

/-- C6 witness: a failed tick observed while the record was `transcribing`
is worded as a transcription failure. -/
theorem c6_wording_prior_status_witness :
    (pollTick emptyPreserved
        (.ok ⟨true, some { sampleFetched with status := "failed" }⟩)
        sampleState).notices = [Notice.errorNote "转录失败"] := by
  have h := c6_wording_prior_status emptyPreserved sampleState
    { sampleFetched with status := "failed" } (Or.inr rfl)
  rw [h]
  rfl

/-- C8: a tick whose fetch throws or returns a response missing `success`
or `data` leaves the view state entirely unchanged, emits no toast and no
follow-up, and the session keeps fetching on the fixed schedule: the run
over the remaining outcomes is exactly the run without the bad tick, plus
the one fetch the bad tick already issued. -/
theorem c8_failure_no_update (p : PreservedUrls) (o : FetchOutcome)
    (s : ViewState) (rest : List FetchOutcome)
    (hbad : malformed o = true) (hpoll : s.polling = true) :
    pollTick p o s = ⟨s, [], []⟩ ∧
    (runTicks p (o :: rest) s).state = (runTicks p rest s).state ∧
    (runTicks p (o :: rest) s).notices = (runTicks p rest s).notices ∧
    (runTicks p (o :: rest) s).followUps = (runTicks p rest s).followUps ∧
    (runTicks p (o :: rest) s).fetches = (runTicks p rest s).fetches + 1 := by
  have htick : pollTick p o s = ⟨s, [], []⟩ := by
    cases o with
    | err => rfl
    | ok resp =>
      cases resp with
      | mk succ data =>
        cases succ with
        | false => simp [pollTick]
        | true => cases data <;> simp_all [pollTick, malformed]
  refine ⟨htick, ?_, ?_, ?_, ?_⟩ <;> simp [runTicks, hpoll, htick]

/-- C8 witness: a concrete malformed response (success flag false) changes
nothing and the loop keeps going. -/
theorem c8_failure_no_update_witness :
    pollTick emptyPreserved (.ok ⟨false, some sampleFetched⟩) sampleState
      = ⟨sampleState, [], []⟩ ∧
    (runTicks emptyPreserved
        [.ok ⟨false, some sampleFetched⟩] sampleState).fetches
      = (runTicks emptyPreserved ([] : List FetchOutcome) sampleState).fetches
        + 1 :=
  ⟨(c8_failure_no_update emptyPreserved (.ok ⟨false, some sampleFetched⟩)
      sampleState [] rfl rfl).1,
   (c8_failure_no_update emptyPreserved (.ok ⟨false, some sampleFetched⟩)
      sampleState [] rfl rfl).2.2.2.2⟩

/-- C10: when no local record is held and a well-formed terminal response
arrives, the tick still stops the timer, still clears the durable
poll-intent flag, still emits exactly one terminal toast worded as the
summarization outcome, and writes no record field (the record stays absent
and `stableVideoUrl` is untouched). -/
theorem c10_no_record_terminal (p : PreservedUrls) (s : ViewState)
    (d : TaskRecord) (hrec : s.record = none)
    (hterm : d.status = "completed" ∨ d.status = "failed") :
    ((pollTick p (.ok ⟨true, some d⟩) s).state.record = none) ∧
    ((pollTick p (.ok ⟨true, some d⟩) s).state.stableVideoUrl
      = s.stableVideoUrl) ∧
    ((pollTick p (.ok ⟨true, some d⟩) s).state.polling = false) ∧
    ((pollTick p (.ok ⟨true, some d⟩) s).state.pollFlag = false) ∧
    (d.status = "completed" →
      (pollTick p (.ok ⟨true, some d⟩) s).notices
        = [Notice.successNote "总结生成完成"]) ∧
    (d.status = "failed" →
      (pollTick p (.ok ⟨true, some d⟩) s).notices
        = [Notice.errorNote "总结生成失败"]) := by
  rcases hterm with h | h <;> simp_all [pollTick, isTerminal, h, hrec]

/-- C10 witness: a concrete completed tick with no record held stops, clears
the flag and emits the summarization success toast. -/
theorem c10_no_record_terminal_witness :
    ((pollTick emptyPreserved
        (.ok ⟨true, some { sampleFetched with status := "completed" }⟩)
        { record := none, stableVideoUrl := "", polling := true,
          pollFlag := true }).state.pollFlag = false) ∧
    ((pollTick emptyPreserved
        (.ok ⟨true, some { sampleFetched with status := "completed" }⟩)
        { record := none, stableVideoUrl := "", polling := true,
          pollFlag := true }).notices
      = [Notice.successNote "总结生成完成"]) := by
  have h := c10_no_record_terminal emptyPreserved
    { record := none, stableVideoUrl := "", polling := true, pollFlag := true }
    { sampleFetched with status := "completed" } rfl (Or.inl rfl)
  exact ⟨h.2.2.2.1, h.2.2.2.2.1 rfl⟩

/-- C4: at view-mount with no timer yet installed, after a successful
initial fetch the detail view starts the poller if and only if the freshly
fetched status is one of `pending`, `downloading`, `extracting_audio`,
`transcribing`, `summarizing`, or the durable poll-intent flag for that
task id reads true. -/
theorem c4_mount_decision (d : TaskRecord) (flag : Bool) (s : ViewState)
    (hpoll : s.polling = false) :
    ((loadRecord true d flag s).polling = true ↔
      (d.status ∈ processingStatuses ∨ flag = true)) := by
  simp only [loadRecord, startPolling, if_pos]
  split <;> rename_i hcond <;>
    simp_all [List.elem_iff]

/-- C4 witness: a freshly fetched `transcribing` record with the flag unset
starts the poller. -/
theorem c4_mount_decision_witness :
    (loadRecord true sampleCurrent false sampleIdleState).polling = true :=
  (c4_mount_decision sampleCurrent false sampleIdleState rfl).mpr
    (Or.inl (by decide))

/-- C5 counterexample: the claim fails for `retry` — at a concrete state
holding a record, a successful retry response with a data payload replaces
the record and toasts, but neither starts the poller nor sets the durable
poll-intent flag. -/
theorem c5_counterexample :
    (handleRetry ⟨true, some sampleFetched⟩ sampleIdleState).startedPolling
      = false ∧
    (handleRetry ⟨true, some sampleFetched⟩ sampleIdleState).state.polling
      = false ∧
    (handleRetry ⟨true, some sampleFetched⟩ sampleIdleState).state.pollFlag
      = false ∧
    (handleRetry ⟨true, some sampleFetched⟩ sampleIdleState).state.record
      = some sampleFetched := by
  refine ⟨rfl, rfl, rfl, rfl⟩

/-- C5 (amended): when the mutating request succeeds while a record is
held, `retranscribe` and `resummarize` explicitly start the poller (and set
the durable flag); `retry` does not — it only replaces the local record
with the response snapshot, leaving the timer and the flag as they were. -/
theorem c5_actions_polling (s : ViewState) (r : TaskRecord)
    (resp : ApiResponse) (hrec : s.record = some r) :
    (handleRetranscribe true s).startedPolling = true ∧
    (handleRetranscribe true s).state.polling = true ∧
    (handleRetranscribe true s).state.pollFlag = true ∧
    (handleResummarize true s).startedPolling = true ∧
    (handleResummarize true s).state.polling = true ∧
    (handleResummarize true s).state.pollFlag = true ∧
    (handleRetry resp s).startedPolling = false ∧
    (handleRetry resp s).state.polling = s.polling ∧
    (handleRetry resp s).state.pollFlag = s.pollFlag := by
  obtain ⟨succ, data⟩ := resp
  cases succ <;> cases data <;>
    simp_all [handleRetranscribe, handleResummarize, handleRetry,
      startPolling]

/-- C5 witness: at a concrete state, retranscribe starts the poller and a
successful retry does not. -/
theorem c5_actions_polling_witness :
    (handleRetranscribe true sampleIdleState).state.polling = true ∧
    (handleRetry ⟨true, some sampleFetched⟩
        sampleIdleState).startedPolling = false :=
  ⟨(c5_actions_polling sampleIdleState sampleCurrent
      ⟨true, some sampleFetched⟩ rfl).2.1,
   (c5_actions_polling sampleIdleState sampleCurrent
      ⟨true, some sampleFetched⟩ rfl).2.2.2.2.2.2.1⟩

/-- C7: from a well-formed timer state, calling the timer side of
`startPolling` twice in succession leaves exactly one live interval (the
prior one is cleared before the new one is installed), and `stopPolling` is
idempotent and leaves no live interval whether or not one was running. -/
theorem c7_single_timer (t : TimerSys) (hwf : TimerWF t) :
    (startPollingTimer (startPollingTimer t)).live = [t.nextId + 1] ∧
    stopPollingTimer (stopPollingTimer t) = stopPollingTimer t ∧
    (stopPollingTimer t).live = [] := by
  obtain ⟨hlt, hlive⟩ := hwf
  obtain ⟨nextId, live, handle⟩ := t
  cases handle with
  | none =>
    simp only [Option.toList] at hlive
    subst hlive
    simp [startPollingTimer, stopPollingTimer, setIntervalSys,
      clearIntervalSys]
  | some h =>
    simp only [Option.toList] at hlive
    subst hlive
    simp [startPollingTimer, stopPollingTimer, setIntervalSys,
      clearIntervalSys]

/-- C7 witness: at a concrete well-formed timer state with one live
interval, a double start leaves exactly one live interval and a double stop
equals a single stop. -/
theorem c7_single_timer_witness :
    (startPollingTimer (startPollingTimer ⟨5, [3], some 3⟩)).live = [6] ∧
    stopPollingTimer (stopPollingTimer ⟨5, [3], some 3⟩)
      = stopPollingTimer ⟨5, [3], some 3⟩ ∧
    (stopPollingTimer (⟨5, [3], some 3⟩ : TimerSys)).live = [] :=
  c7_single_timer ⟨5, [3], some 3⟩ ⟨by decide, by decide⟩

end VideoSummarizer
